import Mathlib

/-!
Verification of the streaming/session core of the chat front-end
(`AgentPreview.tsx` and `OrchestrationPanel.tsx`).

The TypeScript source is shallowly embedded: React `useState` cells become
fields of an explicit `ComponentState`, the locals of `handleMessages`
become a `StreamLocals` record threaded through a step function, `fetch`
responses are supplied by an explicit environment record, and string
indices (JS `slice`) are modelled at character granularity on `String.data`.
`JSON.parse` is a platform primitive, so it appears as an explicit
`parse : String -> Option RawEvent` parameter; the discriminant dispatch of
the source (`data.error` first, then `data.type`) is the Lean function
`classify`.
-/

/-- Mirrors the `IAnnotation` interface of `AgentPreview.tsx`
(`file_name?`, `text`, `start_index`, `end_index`).  The interface name
itself cannot be reused here, so the structure is called `AnnotationData`. -/
structure AnnotationData where
  file_name : Option String
  text : String
  start_index : Nat
  end_index : Nat
deriving DecidableEq, Repr

/-- The `linkText` local of `preprocessContent`:
`annotation.file_name ? `[file_name]` : annotation.text`.
JS truthiness: an empty `file_name` string is falsy and falls back to
`annotation.text`. -/
def linkText (a : AnnotationData) : String :=
  match a.file_name with
  | some f => if f = "" then a.text else "[" ++ f ++ "]"
  | none => a.text

/-- One splice step of `preprocessContent`, at character granularity:
`content.slice(0, start_index) + linkText + content.slice(end_index)`. -/
def listSplice (content : List Char) (a : AnnotationData) : List Char :=
  content.take a.start_index ++ (linkText a).data ++ content.drop a.end_index

/-- `listSplice` packaged on `String` (JS strings are modelled as their
character lists). -/
def spliceOne (content : String) (a : AnnotationData) : String :=
  ⟨listSplice content.data a⟩

/-- `preprocessContent` from `AgentPreview.tsx`: if annotations are
present, splice each one in reverse order of the given list
(`annotations.slice().reverse().forEach(...)`), reassigning `content`
each time; otherwise return `content` unchanged.  `some []` corresponds
to a present-but-empty array (truthy in JS, and the loop does nothing). -/
def preprocessContent (content : String)
    (anns : Option (List AnnotationData)) : String :=
  match anns with
  | some l => l.reverse.foldl spliceOne content
  | none => content

/-- Specification-side rendering of an annotated string: characters of
`content` from position `p` on, with each range `[start_index, end_index)`
replaced by its link text.  This is the "each range replaced, everything
outside preserved" reading of the spec. -/
def renderFrom (content : List Char) (p : Nat) :
    List AnnotationData → List Char
  | [] => content.drop p
  | a :: rest =>
      (content.take a.start_index).drop p ++ (linkText a).data ++
        renderFrom content a.end_index rest

/-- The caller-guaranteed precondition on an annotation list: ranges are
ascending, non-overlapping, well formed, and within the content (`len`),
starting at or after position `p`. -/
def chainedFrom (len p : Nat) : List AnnotationData → Bool
  | [] => true
  | a :: rest =>
      decide (p ≤ a.start_index) && decide (a.start_index ≤ a.end_index) &&
        decide (a.end_index ≤ len) && chainedFrom len a.end_index rest

theorem renderFrom_nil (content : List Char) (p : Nat) :
    renderFrom content p [] = content.drop p := rfl

theorem renderFrom_cons (content : List Char) (p : Nat) (a : AnnotationData)
    (rest : List AnnotationData) :
    renderFrom content p (a :: rest) =
      (content.take a.start_index).drop p ++ (linkText a).data ++
        renderFrom content a.end_index rest := rfl

theorem foldl_spliceOne_data (l : List AnnotationData) :
    ∀ s : String, (l.foldl spliceOne s).data = l.foldl listSplice s.data := by
  induction l with
  | nil => intro s; rfl
  | cons a rest ih =>
      intro s
      simpa [List.foldl_cons, spliceOne] using ih ⟨listSplice s.data a⟩

theorem foldl_listSplice_eq (l : List AnnotationData) :
    ∀ (p : Nat) (content : List Char),
      chainedFrom content.length p l = true →
        l.reverse.foldl listSplice content =
          content.take p ++ renderFrom content p l := by
  induction l with
  | nil =>
      intro p content _
      simp [renderFrom, List.take_append_drop]
  | cons a rest ih =>
      intro p content h
      simp only [chainedFrom, Bool.and_eq_true, decide_eq_true_eq] at h
      obtain ⟨⟨⟨hps, hse⟩, hel⟩, hrest⟩ := h
      have hsl : a.start_index ≤ content.length := le_trans hse hel
      rw [List.reverse_cons, List.foldl_append, ih a.end_index content hrest]
      show listSplice
        (content.take a.end_index ++ renderFrom content a.end_index rest) a =
        content.take p ++ renderFrom content p (a :: rest)
      rw [renderFrom_cons]
      unfold listSplice
      have hlen : (content.take a.end_index).length = a.end_index := by
        simp [List.length_take, Nat.min_eq_left hel]
      rw [List.take_append_eq_append_take, List.drop_append_eq_append_drop,
        hlen]
      have h1 : a.start_index - a.end_index = 0 := Nat.sub_eq_zero_of_le hse
      have h2 : a.end_index - a.end_index = 0 := Nat.sub_self _
      rw [h1, h2]
      have h3 : (content.take a.end_index).take a.start_index =
          content.take a.start_index := by
        rw [List.take_take, Nat.min_eq_left hse]
      have h4 : (content.take a.end_index).drop a.end_index = [] :=
        List.drop_eq_nil_of_le (le_of_eq hlen)
      rw [h3, h4]
      have h5 : content.take a.start_index =
          content.take p ++ (content.take a.start_index).drop p := by
        conv_lhs => rw [← List.take_append_drop p (content.take a.start_index)]
        rw [List.take_take, Nat.min_eq_left hps]
      conv_lhs => rw [h5]
      simp

theorem preprocessContent_spec (content : String) (l : List AnnotationData)
    (h : chainedFrom content.data.length 0 l = true) :
    (preprocessContent content (some l)).data = renderFrom content.data 0 l := by
  show (l.reverse.foldl spliceOne content).data = _
  rw [foldl_spliceOne_data, foldl_listSplice_eq l 0 content.data h]
  simp

/-- A transcript entry, mirroring the `IChatItem` literals built in
`AgentPreview.tsx`.  `role` is `none` where the source literal omits it
(note `createAssistantMessageDiv` sets no `role`). -/
structure ChatItem where
  id : String
  content : String
  role : Option String
  isAnswer : Option Bool
deriving DecidableEq, Repr

/-- The `useState` cells of the `AgentPreview` component that the
streaming/session core reads or writes, plus an explicit model of the
browser timer table.  `timerHandle` is the global
`window.agentThinkingInterval`; `activeTimers` is the set of interval
timers currently scheduled (`setInterval` appends a fresh id,
`clearInterval` erases it); `nextTimerId` and `nextItemId` are fresh-id
supplies standing in for `setInterval` handles, `Date.now()` and
`crypto.randomUUID()`. -/
structure ComponentState where
  messageList : List ChatItem
  isResponding : Bool
  isOrchestrationMode : Bool
  orchestrationInitialized : Bool
  showAgentThinking : Bool
  isPollingThinking : Bool
  timerHandle : Option Nat
  activeTimers : List Nat
  nextTimerId : Nat
  nextItemId : Nat
deriving DecidableEq, Repr

/-- `startAgentThinkingPolling`: guarded on
`showAgentThinking && isOrchestrationMode && !isPollingThinking`; sets the
flag, schedules a new interval timer and stores its handle on the global
object (overwriting any previous handle without clearing it, as the
source does). -/
def startAgentThinkingPolling (s : ComponentState) : ComponentState :=
  if s.showAgentThinking && s.isOrchestrationMode && !s.isPollingThinking then
    { s with
      isPollingThinking := true
      activeTimers := s.activeTimers ++ [s.nextTimerId]
      timerHandle := some s.nextTimerId
      nextTimerId := s.nextTimerId + 1 }
  else s

/-- `stopAgentThinkingPolling`: clears the flag, and if a global handle is
present, clears that interval and nulls the handle. -/
def stopAgentThinkingPolling (s : ComponentState) : ComponentState :=
  let s := { s with isPollingThinking := false }
  match s.timerHandle with
  | some t => { s with activeTimers := s.activeTimers.erase t, timerHandle := none }
  | none => s

/-- `stopRespondingAndPolling`: `setIsResponding(false)` then
`stopAgentThinkingPolling()`. -/
def stopRespondingAndPolling (s : ComponentState) : ComponentState :=
  stopAgentThinkingPolling { s with isResponding := false }

/-- Poller well-formedness: the `isPollingThinking` flag, the global
handle and the scheduled-timer table agree (true initially, when all are
empty). -/
def PollerWF (s : ComponentState) : Prop :=
  s.isPollingThinking = s.timerHandle.isSome ∧
  s.activeTimers = (match s.timerHandle with | some t => [t] | none => [])

/-- `createAssistantMessageDiv`: builds an empty assistant item (the
source literal has no `role` field) and appends it to the message list. -/
def createAssistantMessageDiv (c : ComponentState) : ComponentState × ChatItem :=
  let item : ChatItem :=
    { id := toString c.nextItemId, content := "", role := none,
      isAnswer := some true }
  ({ c with messageList := c.messageList ++ [item],
            nextItemId := c.nextItemId + 1 }, item)

/-- `appendAssistantMessage`: resolves annotations over the accumulated
content, writes the result into the chat item, and publishes
`[...prev.slice(0, -1), { ...chatItem }]` — i.e. replaces the last list
element with the updated item.  `isStreaming` only gates the
scroll-into-view side effect in the source and does not affect the list. -/
def appendAssistantMessage (c : ComponentState) (chatItem : ChatItem)
    (accumulatedContent : String) (isStreaming : Bool)
    (anns : Option (List AnnotationData)) : ComponentState × ChatItem :=
  let updated :=
    { chatItem with content := preprocessContent accumulatedContent anns }
  ({ c with messageList := c.messageList.dropLast ++ [updated] }, updated)

/-- The JSON object shape consumed by `handleMessages`
(`{type?, content?, annotations?, error?}`).  `error = some m` models a
truthy `data.error` object whose optional `.message` is `m`. -/
structure RawEvent where
  error : Option (Option String) := none
  type : Option String := none
  content : Option String := none
  annotations : Option (List AnnotationData) := none
deriving DecidableEq, Repr

/-- The five handler branches of `handleMessages`, in the shape the
dispatch leaves them. -/
inductive SSEEvent where
  | errorEvt (message : Option String)
  | streamEnd
  | threadRun
  | completedMessage (content : String)
      (annotations : Option (List AnnotationData))
  | delta (content : String)
deriving DecidableEq, Repr

/-- The discriminant dispatch of `handleMessages`, in source order:
`data.error` is checked first, then `data.type` against `"stream_end"`,
`"thread_run"` and `"completed_message"`; anything else is treated as a
delta.  A missing `content` field is modelled as the empty string (the
claims never exercise that corner; in JS it would coerce `undefined`). -/
def classify (d : RawEvent) : SSEEvent :=
  match d.error with
  | some msg => .errorEvt msg
  | none =>
    if d.type = some "stream_end" then .streamEnd
    else if d.type = some "thread_run" then .threadRun
    else if d.type = some "completed_message" then
      .completedMessage (d.content.getD "") d.annotations
    else .delta (d.content.getD "")

/-- The local variables of `handleMessages` / `readStream`.  `returned`
records that the error branch executed `return`, exiting `readStream`
entirely. -/
structure StreamLocals where
  chatItem : Option ChatItem
  accumulatedContent : String
  isStreaming : Bool
  buffer : String
  annotations : Option (List AnnotationData)
  returned : Bool
deriving DecidableEq, Repr

/-- Initial locals of `handleMessages`: note `annotations` starts as a
present empty array. -/
def initLocals : StreamLocals :=
  { chatItem := none, accumulatedContent := "", isStreaming := true,
    buffer := "", annotations := some [], returned := false }

/-- Component state together with the decoder locals. -/
structure DecoderState where
  comp : ComponentState
  loc : StreamLocals
deriving DecidableEq, Repr

/-- Control flow out of one line of the SSE loop: fall through to the
next line, `break` out of the line loop (`stream_end`), or `return` from
`readStream` (error event). -/
inductive Ctl where
  | next
  | brk
  | ret
deriving DecidableEq, Repr

/-- `if (!chatItem) chatItem = createAssistantMessageDiv()`. -/
def ensureChatItem (c : ComponentState) (loc : StreamLocals) :
    ComponentState × ChatItem :=
  match loc.chatItem with
  | some item => (c, item)
  | none => createAssistantMessageDiv c

/-- One parsed SSE event applied to the decoder state, following the
branch bodies of `handleMessages` line by line. -/
def processEvent (st : DecoderState) (ev : SSEEvent) : DecoderState × Ctl :=
  match ev with
  | .errorEvt msg =>
      let (c, item) := ensureChatItem st.comp st.loc
      let c := stopRespondingAndPolling c
      let (c, item') :=
        appendAssistantMessage c item (msg.getD "An error occurred.") false none
      (⟨c, { st.loc with chatItem := some item', returned := true }⟩, .ret)
  | .streamEnd =>
      (⟨stopRespondingAndPolling st.comp, st.loc⟩, .brk)
  | .threadRun => (st, .next)
  | .completedMessage content anns =>
      let (c, item) := ensureChatItem st.comp st.loc
      let item := { item with content := "" }
      let loc := { st.loc with chatItem := some item,
                               accumulatedContent := content,
                               annotations := anns, isStreaming := false }
      let c := stopRespondingAndPolling c
      let (c, item') := appendAssistantMessage c item loc.accumulatedContent
        loc.isStreaming loc.annotations
      (⟨c, { loc with chatItem := some item' }⟩, .next)
  | .delta content =>
      let (c, item) := ensureChatItem st.comp st.loc
      let loc := { st.loc with chatItem := some item,
                               accumulatedContent :=
                                 st.loc.accumulatedContent ++ content }
      let (c, item') := appendAssistantMessage c item loc.accumulatedContent
        loc.isStreaming loc.annotations
      (⟨c, { loc with chatItem := some item' }⟩, .next)

/-- One `data: `-payload: `JSON.parse` (the `parse` parameter) followed by
the dispatch.  A parse failure is logged and skipped (`continue`). -/
def processPayload (parse : String → Option RawEvent) (st : DecoderState)
    (payload : String) : DecoderState × Ctl :=
  match parse payload with
  | none => (st, .next)
  | some d => processEvent st (classify d)

/-- Whitespace for the purposes of JS `String.prototype.trim` (the four
whitespace characters that can occur in an SSE byte stream). -/
def wsChar (c : Char) : Bool :=
  c = ' ' || c = '\n' || c = '\r' || c = '\t'

/-- JS `trim()` at character granularity: strip whitespace from both
ends. -/
def trimChars (cs : List Char) : List Char :=
  ((cs.dropWhile wsChar).reverse.dropWhile wsChar).reverse

/-- `buffer.split` on newline characters, at character granularity,
matching `buffer.indexOf("\n")` line extraction: every element but the
last is a complete line, the last is the unterminated tail. -/
def splitLines : List Char → List (List Char)
  | [] => [[]]
  | c :: rest =>
      let r := splitLines rest
      if c = '\n' then [] :: r
      else
        match r with
        | [] => [[c]]
        | l :: ls => (c :: l) :: ls

/-- Inverse of `splitLines`: re-join line fragments with newlines, used to
reconstitute the unconsumed part of the buffer. -/
def joinLines : List (List Char) → List Char
  | [] => []
  | [l] => l
  | l :: ls => l ++ '\n' :: joinLines ls

/-- One raw line of the stream: trim it, ignore it unless it carries the
`data: ` marker, otherwise hand the payload (`chunk.slice(6)`) on. -/
def processLine (parse : String → Option RawEvent) (st : DecoderState)
    (line : String) : DecoderState × Ctl :=
  let chunk := trimChars line.data
  if "data: ".data.isPrefixOf chunk then
    processPayload parse st ⟨chunk.drop 6⟩
  else (st, .next)

/-- The inner `while (boundary !== -1)` loop over the complete lines of
the buffer.  Returns the lines left unprocessed when the loop is exited
early by `break`; on `return` the remaining lines are abandoned with the
`returned` flag already set in the state. -/
def processLines (parse : String → Option RawEvent) :
    DecoderState → List String → DecoderState × List String
  | st, [] => (st, [])
  | st, l :: ls =>
    match processLine parse st l with
    | (st', .next) => processLines parse st' ls
    | (st', .brk) => (st', ls)
    | (st', .ret) => (st', [])

/-- One iteration of the outer `while (true)` read loop with a decoded
text chunk: append it to the buffer, split off the complete lines
(everything before the last `"\n"`), run the line loop, and keep the
unconsumed tail as the new buffer.  If the error branch already returned,
nothing further is processed. -/
def processChunk (parse : String → Option RawEvent) (st : DecoderState)
    (chunk : String) : DecoderState :=
  if st.loc.returned then st
  else
    let parts := splitLines (st.loc.buffer.data ++ chunk.data)
    let (st', remaining) := processLines parse st (parts.dropLast.map String.mk)
    { st' with loc := { st'.loc with
        buffer := ⟨joinLines ((remaining.map String.data) ++
          [parts.getLastD []])⟩ } }

/-- `handleMessages`: fresh locals, then the read loop folded over the
chunks the transport delivers; when the transport reports `done` the loop
exits and any unterminated buffer tail is never processed. -/
def handleMessages (parse : String → Option RawEvent) (c : ComponentState)
    (chunks : List String) : DecoderState :=
  chunks.foldl (processChunk parse) ⟨c, initLocals⟩

/-- Response of `GET /orchestration/status` as read by `onSend`:
`ok`, `statusData.status` and `statusData.orchestration_info?.status`. -/
structure StatusResp where
  ok : Bool
  status : Option String
  infoStatus : Option String
deriving DecidableEq, Repr

/-- `orchestration_result` of the orchestration chat response (only the
fields the client reads). -/
structure OrchResult where
  result : String
  agents_used : List String
deriving DecidableEq, Repr

/-- JSON body of the orchestration chat response as read by `onSend`:
`status`, the (possibly absent) `orchestration_result` object, and the
`error` field used in the failure branch. -/
structure OrchJson where
  status : Option String
  orchestration_result : Option OrchResult
  error : Option String
deriving DecidableEq, Repr

/-- Response of the chat `POST`: the `ok` flag, the JSON body the
orchestration path would read, and the stream chunks the streaming path
would read. -/
structure ChatResp where
  ok : Bool
  orchJson : OrchJson
  streamChunks : List String
deriving DecidableEq, Repr

/-- JSON request bodies the components build:
`{query}`, `{message}` or `{agent_ids}`. -/
inductive PostBody where
  | queryField (q : String)
  | messageField (m : String)
  | agentIdsField (ids : List String)
deriving DecidableEq, Repr

/-- One network request issued through `fetch`. -/
structure Request where
  method : String
  url : String
  body : Option PostBody
deriving DecidableEq, Repr

/-- The transport environment of one `onSend` call: the response of the
status revalidation fetch, the response of the chat `POST` (`none` models
a thrown network error or user abort in either case), and the platform
`JSON.parse` used by the stream decoder. -/
structure SendEnv where
  statusResp : Option StatusResp
  chatResp : Option ChatResp
  parse : String → Option RawEvent

/-- The revalidation test of `onSend`:
`statusResponse.ok`, `statusData.status === 'success'` and
`statusData.orchestration_info?.status === 'initialized'`. -/
def reportsInitialized (o : Option StatusResp) : Bool :=
  match o with
  | some r =>
      r.ok && r.status == some "success" && r.infoStatus == some "initialized"
  | none => false

/-- The path decision of `onSend`: start from
`isOrchestrationMode && orchestrationInitialized`; when orchestration
mode is on but the cache is false, make one status request and, if it
confirms initialization, set the cache and use orchestration; any other
status outcome (including a thrown fetch) is swallowed. -/
def chooseOrchestration (s : ComponentState) (env : SendEnv) :
    ComponentState × List Request × Bool :=
  let useOrchestration := s.isOrchestrationMode && s.orchestrationInitialized
  if s.isOrchestrationMode && !s.orchestrationInitialized then
    let req : Request :=
      { method := "GET", url := "/orchestration/status", body := none }
    if reportsInitialized env.statusResp then
      ({ s with orchestrationInitialized := true }, [req], true)
    else (s, [req], useOrchestration)
  else (s, [], useOrchestration)

/-- The user turn literal appended at the top of `onSend`. -/
def userItemOf (s : ComponentState) (message : String) : ChatItem :=
  { id := "user-" ++ toString s.nextItemId, content := message,
    role := some "user", isAnswer := none }

/-- The error item appended when the orchestration response lacks a
success status or a result object
(`jsonResponse.error || "An error occurred during orchestration"`). -/
def orchErrorAppend (s : ComponentState) (j : OrchJson) : ComponentState :=
  { s with
    messageList := s.messageList ++
      [{ id := "error-" ++ toString s.nextItemId,
         content := j.error.getD "An error occurred during orchestration",
         role := some "assistant", isAnswer := some true }]
    nextItemId := s.nextItemId + 1 }

/-- The part of `onSend` preceding the chat `POST`: user turn appended,
path decided (with revalidation), `isResponding` set, poller started when
the orchestrated path is used with thinking display enabled, and the
request list (optional status `GET`, then the chat `POST`) assembled. -/
structure SendPrep where
  state : ComponentState
  useOrchestration : Bool
  requests : List Request

/-- Lines of `onSend` up to and including the `fetch(endpoint, ...)`
call. -/
def prepareSend (s : ComponentState) (env : SendEnv) (message : String) :
    SendPrep :=
  let s1 := { s with messageList := s.messageList ++ [userItemOf s message],
                     nextItemId := s.nextItemId + 1 }
  let dec := chooseOrchestration s1 env
  let useOrchestration := dec.2.2
  let endpoint := if useOrchestration then "/orchestration/chat" else "/chat"
  let postData := if useOrchestration then PostBody.queryField message
    else PostBody.messageField message
  let s3 := { dec.1 with isResponding := true }
  let s4 := if useOrchestration && s3.showAgentThinking then
      startAgentThinkingPolling s3
    else s3
  { state := s4, useOrchestration := useOrchestration,
    requests := dec.2.1 ++ [{ method := "POST", url := endpoint,
                              body := some postData }] }

/-- `onSend` of `AgentPreview.tsx`: append the user turn, decide the path
(with revalidation), mark responding, start the thinking poller when the
orchestrated path is used with thinking display enabled, issue the
`POST`, and handle the response.  Note the source behaviour on a non-2xx
response: it logs and returns without appending anything and without
stopping the poller.  A thrown fetch (`env.chatResp = none`) lands in the
`catch`, which stops responding and polling.  The result is the final
component state and the list of requests issued. -/
def onSend (s : ComponentState) (env : SendEnv) (message : String) :
    ComponentState × List Request :=
  let prep := prepareSend s env message
  let s4 := prep.state
  let useOrchestration := prep.useOrchestration
  let reqs := prep.requests
  match env.chatResp with
  | none => (stopRespondingAndPolling s4, reqs)
  | some resp =>
    if !resp.ok then (s4, reqs)
    else if useOrchestration then
      let j := resp.orchJson
      let s5 :=
        match j.orchestration_result with
        | some r =>
            if j.status = some "success" then
              { s4 with
                messageList := s4.messageList ++
                  [{ id := "assistant-" ++ toString s4.nextItemId,
                     content := r.result, role := some "assistant",
                     isAnswer := some true }]
                nextItemId := s4.nextItemId + 1 }
            else orchErrorAppend s4 j
        | none => orchErrorAppend s4 j
      (stopRespondingAndPolling s5, reqs)
    else
      ((handleMessages env.parse s4 resp.streamChunks).comp, reqs)

/-- `orchestration_info` of the `OrchestrationStatus` interface in
`OrchestrationPanel.tsx`. -/
structure OrchestrationInfo where
  agent_count : Nat
  agent_ids : List String
  endpoint : String
  status : String
deriving DecidableEq, Repr

/-- The `OrchestrationStatus` interface of `OrchestrationPanel.tsx`. -/
structure OrchestrationStatusData where
  status : String
  orchestration_info : OrchestrationInfo
deriving DecidableEq, Repr

/-- `processOrchestrationQuery` of `OrchestrationPanel.tsx`, reduced to
the request it issues: guards on a non-empty trimmed message and an
initialized orchestration status, then `POST /orchestration/chat` with
body `{message: message}` (note: `message`, not `query`). -/
def processOrchestrationQuery (message : String)
    (orchestrationStatus : Option OrchestrationStatusData) : Option Request :=
  if trimChars message.data = [] then none
  else
    match orchestrationStatus with
    | none => none
    | some st =>
        if st.orchestration_info.status = "initialized" then
          some { method := "POST", url := "/orchestration/chat",
                 body := some (.messageField message) }
        else none

/-- Fresh component state: empty transcript, single-agent mode, nothing
polling or responding. -/
def initialComponent : ComponentState :=
  { messageList := [], isResponding := false, isOrchestrationMode := false,
    orchestrationInitialized := false, showAgentThinking := false,
    isPollingThinking := false, timerHandle := none, activeTimers := [],
    nextTimerId := 0, nextItemId := 0 }

/-- Payload of a delta event carrying `"Hel"`. -/
def j1 : String := "\x7b\"type\":\"delta\",\"content\":\"Hel\"\x7d"

/-- Payload of a delta event carrying `"lo"`. -/
def j2 : String := "\x7b\"type\":\"delta\",\"content\":\"lo\"\x7d"

/-- Payload of a completed-message event carrying `"Hello, world"`. -/
def j3 : String :=
  "\x7b\"type\":\"completed_message\",\"content\":\"Hello, world\"\x7d"

/-- Concrete `JSON.parse` table for the delta/completed scenario. -/
def demoParse : String → Option RawEvent := fun s =>
  if s = j1 then some { type := some "delta", content := some "Hel" }
  else if s = j2 then some { type := some "delta", content := some "lo" }
  else if s = j3 then
    some { type := some "completed_message", content := some "Hello, world" }
  else none

/-- The delta/completed scenario as it arrives off the wire. -/
def demoChunks : List String :=
  ["data: " ++ j1 ++ "\n", "data: " ++ j2 ++ "\n", "data: " ++ j3 ++ "\n"]

/-- Claim C1: a `completed_message` event fully replaces the accumulated
content with the event content (prior deltas are discarded), installs the
event's annotation list, clears the streaming flag, stops the
thinking-poll, and the displayed (last) transcript entry becomes the
annotation-resolved event content; in particular deltas `"Hel"`, `"lo"`
followed by `completed_message "Hello, world"` display exactly
`"Hello, world"`. -/
theorem completed_message_replaces_accumulation :
    (∀ (st : DecoderState) (C : String) (anns : Option (List AnnotationData)),
      ((processEvent st (.completedMessage C anns)).1.loc.accumulatedContent
          = C) ∧
      ((processEvent st (.completedMessage C anns)).1.loc.annotations = anns) ∧
      ((processEvent st (.completedMessage C anns)).1.loc.isStreaming
          = false) ∧
      ((processEvent st (.completedMessage C anns)).1.comp.isPollingThinking
          = false) ∧
      ((processEvent st (.completedMessage C anns)).1.comp.timerHandle
          = none) ∧
      ((processEvent st (.completedMessage C anns)).1.comp.messageList.getLast?
          |>.map (fun it => it.content)) = some (preprocessContent C anns)) ∧
    ((handleMessages demoParse initialComponent demoChunks).comp.messageList.map
      (fun it => it.content) = ["Hello, world"]) := by
  constructor
  · intro st C anns
    rcases st with ⟨c, loc⟩
    rcases hci : loc.chatItem with _ | item <;>
      rcases hth : c.timerHandle with _ | t <;>
        simp [processEvent, ensureChatItem, createAssistantMessageDiv,
          appendAssistantMessage, stopRespondingAndPolling,
          stopAgentThinkingPolling, hci, hth]
  · decide

/-- The single annotation of the C2 counterexample: file name present,
covering the range `[5, 6)` of `"cite A"`. -/
def c2Ann : AnnotationData :=
  { file_name := some "doc.txt", text := "A", start_index := 5,
    end_index := 6 }

/-- Claim C2, counterexample: the source shows a present file name
wrapped in square brackets, so the annotated range becomes
`"[doc.txt]"`, not the bare file name `"doc.txt"` the claim describes. -/
theorem preprocess_label_counterexample :
    preprocessContent "cite A" (some [c2Ann]) = "cite [doc.txt]" ∧
    preprocessContent "cite A" (some [c2Ann]) ≠ "cite doc.txt" := by
  constructor
  · decide
  · decide

/-- Claim C2 (amended): with no annotations the content is returned
unchanged; with a non-overlapping ascending in-range annotation list,
`preprocessContent` (which applies the splices in reverse, i.e.
descending `start_index`, order) produces exactly the content with each
half-open range `[start_index, end_index)` replaced by its display label
— the file name in square brackets when a non-empty file name is present,
the raw annotation text otherwise — and every character outside the
ranges preserved. -/
theorem preprocess_resolves_ranges :
    (∀ content : String, preprocessContent content none = content) ∧
    (∀ (content : String) (l : List AnnotationData),
      chainedFrom content.data.length 0 l = true →
        (preprocessContent content (some l)).data =
          renderFrom content.data 0 l) :=
  ⟨fun _ => rfl, preprocessContent_spec⟩

/-- Claim C2, witness: two concrete annotations over
`"see A and B here"`. -/
theorem preprocess_resolves_ranges_witness :
    chainedFrom ("see A and B here" : String).data.length 0
        [{ file_name := some "f1.txt", text := "A", start_index := 4,
           end_index := 5 },
         { file_name := none, text := "cite2", start_index := 10,
           end_index := 11 }] = true ∧
    (preprocessContent "see A and B here"
        (some [{ file_name := some "f1.txt", text := "A", start_index := 4,
                 end_index := 5 },
               { file_name := none, text := "cite2", start_index := 10,
                 end_index := 11 }])).data =
      renderFrom ("see A and B here" : String).data 0
        [{ file_name := some "f1.txt", text := "A", start_index := 4,
           end_index := 5 },
         { file_name := none, text := "cite2", start_index := 10,
           end_index := 11 }] :=
  ⟨by decide, preprocess_resolves_ranges.2 "see A and B here" _ (by decide)⟩

/-- Payload of a stream-end event. -/
def seJson : String := "\x7b\"type\":\"stream_end\"\x7d"

/-- Payload of a content-bearing event arriving after stream-end. -/
def xJson : String := "\x7b\"content\":\"X\"\x7d"

/-- Concrete `JSON.parse` table for the after-stream-end scenario. -/
def parseAfterEnd : String → Option RawEvent := fun s =>
  if s = seJson then some { type := some "stream_end" }
  else if s = xJson then some { content := some "X" }
  else none

/-- A stream-end record followed, in a later transport chunk, by a
content record. -/
def chunksAfterEnd : List String :=
  ["data: " ++ seJson ++ "\n", "data: " ++ xJson ++ "\n"]

/-- Claim C3, counterexample: `break` in the `stream_end` branch only
exits the inner line loop, not the outer read loop, so a record arriving
in a subsequent chunk IS processed: after
`stream_end` then `content "X"`, the accumulated content is `"X"` and an
assistant turn holding `"X"` was appended — the decoder did not stop
reading and the open turn's content was altered after the stream-end
event. -/
theorem stream_end_counterexample :
    (handleMessages parseAfterEnd initialComponent chunksAfterEnd).loc.accumulatedContent = "X" ∧
    (handleMessages parseAfterEnd initialComponent chunksAfterEnd).comp.messageList.map
      (fun it => it.content) = ["X"] := by
  constructor
  · decide
  · decide

/-- Claim C3 (amended): a `stream_end` event stops the thinking-poll and
the responding flag, alters neither the decoder locals (accumulated
content, annotations, open item) nor the transcript, and breaks out of
the loop over the currently buffered lines — but it is not a terminal
decoder state: the outer read loop keeps consuming the byte stream, and
records delivered in later chunks are still processed (see the
accompanying counterexample, whose final state carries content from a
record after the stream-end event). -/
theorem stream_end_stops_polling_only :
    (∀ st : DecoderState,
      processEvent st .streamEnd =
        (⟨stopRespondingAndPolling st.comp, st.loc⟩, Ctl.brk)) ∧
    (∀ c : ComponentState,
      (stopRespondingAndPolling c).messageList = c.messageList) ∧
    ((handleMessages parseAfterEnd initialComponent chunksAfterEnd).comp.messageList ≠ []) := by
  refine ⟨fun st => rfl, fun c => ?_, by decide⟩
  rcases h : c.timerHandle <;>
    simp [stopRespondingAndPolling, stopAgentThinkingPolling, h]

/-- Payload of a completed-message event carrying `"A"`. -/
def aJson : String := "\x7b\"type\":\"completed_message\",\"content\":\"A\"\x7d"

/-- Payload of a completed-message event carrying `"B"`. -/
def bJson : String := "\x7b\"type\":\"completed_message\",\"content\":\"B\"\x7d"

/-- Concrete `JSON.parse` table in which only the two completed-message
payloads parse; everything else is malformed. -/
def parseResilience : String → Option RawEvent := fun s =>
  if s = aJson then
    some { type := some "completed_message", content := some "A" }
  else if s = bJson then
    some { type := some "completed_message", content := some "B" }
  else none

/-- A well-formed completed-message record, a malformed JSON record, then
a second well-formed completed-message record. -/
def chunksResilience : List String :=
  ["data: " ++ aJson ++ "\n", "data: this is not json\n",
   "data: " ++ bJson ++ "\n"]

/-- Claim C7: a record whose payload fails to parse is skipped — the
state is returned unchanged and the loop continues with the next line —
and in particular a stream with one malformed line between two
completed-message records ends with the second record's content as the
final (and only) turn content. -/
theorem malformed_line_skipped :
    (∀ (parse : String → Option RawEvent) (st : DecoderState)
      (payload : String), parse payload = none →
        processPayload parse st payload = (st, Ctl.next)) ∧
    ((handleMessages parseResilience initialComponent chunksResilience).comp.messageList.map
      (fun it => it.content) = ["B"]) := by
  constructor
  · intro parse st payload h
    simp [processPayload, h]
  · decide

/-- Claim C7, witness: the skip branch evaluated at a concrete
always-failing parse and a concrete state. -/
theorem malformed_line_skipped_witness :
    processPayload (fun _ => none) ⟨initialComponent, initLocals⟩ "garbage" =
      (⟨initialComponent, initLocals⟩, Ctl.next) :=
  malformed_line_skipped.1 (fun _ => none) ⟨initialComponent, initLocals⟩
    "garbage" rfl

/-- Claim C8: `startAgentThinkingPolling` is idempotent and is the
identity while a poller is running; `stopAgentThinkingPolling` is
idempotent; and on a well-formed poller state (flag, global handle and
timer table in agreement, as they are initially) starting leaves at most
one interval timer scheduled, with well-formedness preserved by both
operations. -/
theorem poller_single_instance :
    ∀ s : ComponentState,
      startAgentThinkingPolling (startAgentThinkingPolling s) =
        startAgentThinkingPolling s ∧
      (s.isPollingThinking = true → startAgentThinkingPolling s = s) ∧
      stopAgentThinkingPolling (stopAgentThinkingPolling s) =
        stopAgentThinkingPolling s ∧
      (PollerWF s →
        (startAgentThinkingPolling s).activeTimers.length ≤ 1 ∧
        PollerWF (startAgentThinkingPolling s) ∧
        PollerWF (stopAgentThinkingPolling s)) := by
  intro s
  refine ⟨?_, ?_, ?_, ?_⟩
  · by_cases hg :
      (s.showAgentThinking && s.isOrchestrationMode && !s.isPollingThinking)
        = true
    · simp [startAgentThinkingPolling, hg]
    · simp [startAgentThinkingPolling, hg]
  · intro h
    simp [startAgentThinkingPolling, h]
  · rcases h : s.timerHandle with _ | t <;>
      simp [stopAgentThinkingPolling, h]
  · intro hwf
    obtain ⟨h1, h2⟩ := hwf
    rcases hth : s.timerHandle with _ | t
    · rw [hth] at h1 h2
      simp only [Option.isSome_none] at h1
      by_cases hg : (s.showAgentThinking && s.isOrchestrationMode) = true
      · simp [startAgentThinkingPolling, stopAgentThinkingPolling,
          PollerWF, h1, h2, hth, hg]
      · simp [startAgentThinkingPolling, stopAgentThinkingPolling,
          PollerWF, h1, h2, hth, hg]
    · rw [hth] at h1 h2
      simp only [Option.isSome_some] at h1
      simp [startAgentThinkingPolling, stopAgentThinkingPolling,
        PollerWF, h1, h2, hth]

/-- A running, well-formed poller state: flag set, one timer scheduled,
global handle pointing at it. -/
def pollerOnState : ComponentState :=
  { initialComponent with
      isOrchestrationMode := true
      showAgentThinking := true
      isPollingThinking := true
      timerHandle := some 5
      activeTimers := [5]
      nextTimerId := 6 }

/-- Claim C8, witness: on a concrete running poller state, starting again
is a no-op and stopping restores well-formedness. -/
theorem poller_single_instance_witness :
    startAgentThinkingPolling pollerOnState = pollerOnState ∧
    PollerWF (stopAgentThinkingPolling pollerOnState) :=
  ⟨(poller_single_instance pollerOnState).2.1 (by decide),
   ((poller_single_instance pollerOnState).2.2.2 ⟨by decide, by decide⟩).2.2⟩

/-- Claim C10: `appendAssistantMessage` publishes
`[...prev.slice(0, -1), updated]` — it replaces exactly the last element
of the message list with the updated turn (the chat item carrying the
annotation-resolved accumulated content); every element before the last
is left unchanged. -/
theorem append_replaces_last_only :
    ∀ (c : ComponentState) (item : ChatItem) (acc : String) (b : Bool)
      (anns : Option (List AnnotationData)),
      ((appendAssistantMessage c item acc b anns).1.messageList =
        c.messageList.dropLast ++
          [{ item with content := preprocessContent acc anns }]) ∧
      ((appendAssistantMessage c item acc b anns).1.messageList.dropLast =
        c.messageList.dropLast) ∧
      (∀ i, i + 1 < c.messageList.length →
        (appendAssistantMessage c item acc b anns).1.messageList[i]? =
          c.messageList[i]?) ∧
      ((appendAssistantMessage c item acc b anns).1.messageList.getLast? =
        some { item with content := preprocessContent acc anns }) := by
  intro c item acc b anns
  refine ⟨rfl, ?_, ?_, ?_⟩
  · simp [appendAssistantMessage]
  · intro i hi
    have hi' : i < c.messageList.dropLast.length := by
      simp only [List.length_dropLast]
      omega
    show (c.messageList.dropLast ++
      [{ item with content := preprocessContent acc anns }])[i]? =
        c.messageList[i]?
    rw [List.getElem?_append_left hi', List.dropLast_eq_take,
      List.getElem?_take_of_lt]
    omega
  · simp [appendAssistantMessage]

/-- A two-element transcript used to witness the frame property. -/
def twoTurnComponent : ComponentState :=
  { initialComponent with
      messageList :=
        [{ id := "user-0", content := "hi", role := some "user",
           isAnswer := none },
         { id := "1", content := "", role := none, isAnswer := some true }] }

/-- Claim C10, witness: on a concrete two-turn transcript the element
before the last is untouched by the update. -/
theorem append_replaces_last_only_witness :
    (appendAssistantMessage twoTurnComponent
        { id := "1", content := "", role := none, isAnswer := some true }
        "Hi there" false none).1.messageList[0]? =
      twoTurnComponent.messageList[0]? :=
  (append_replaces_last_only twoTurnComponent
    { id := "1", content := "", role := none, isAnswer := some true }
    "Hi there" false none).2.2.1 0 (by decide)

theorem stopRespondingAndPolling_fields (c : ComponentState) :
    (stopRespondingAndPolling c).isPollingThinking = false ∧
    (stopRespondingAndPolling c).timerHandle = none ∧
    (stopRespondingAndPolling c).messageList = c.messageList ∧
    (stopRespondingAndPolling c).orchestrationInitialized =
      c.orchestrationInitialized := by
  rcases h : c.timerHandle <;>
    simp [stopRespondingAndPolling, stopAgentThinkingPolling, h]

theorem startAgentThinkingPolling_fields (c : ComponentState) :
    (startAgentThinkingPolling c).messageList = c.messageList ∧
    (startAgentThinkingPolling c).orchestrationInitialized =
      c.orchestrationInitialized ∧
    (startAgentThinkingPolling c).isOrchestrationMode =
      c.isOrchestrationMode := by
  by_cases h :
    (c.showAgentThinking && c.isOrchestrationMode && !c.isPollingThinking)
      = true <;>
    simp [startAgentThinkingPolling, h]

theorem onSend_snd (s : ComponentState) (env : SendEnv) (m : String) :
    (onSend s env m).2 = (prepareSend s env m).requests := by
  unfold onSend
  rcases env.chatResp with _ | resp
  · rfl
  · cases hok : resp.ok
    · simp [hok]
    · simp only [hok, Bool.not_true, Bool.false_eq_true, if_false]
      split <;> rfl

theorem prepareSend_useOrchestration (s : ComponentState) (env : SendEnv)
    (m : String) :
    (prepareSend s env m).useOrchestration =
      (s.isOrchestrationMode &&
        (s.orchestrationInitialized || reportsInitialized env.statusResp)) := by
  unfold prepareSend chooseOrchestration
  by_cases h1 : s.isOrchestrationMode = true <;>
    by_cases h2 : s.orchestrationInitialized = true <;>
      by_cases h3 : reportsInitialized env.statusResp = true <;>
        simp [h1, h2, h3]

theorem prepareSend_state_messageList (s : ComponentState) (env : SendEnv)
    (m : String) :
    (prepareSend s env m).state.messageList =
      s.messageList ++ [userItemOf s m] := by
  unfold prepareSend chooseOrchestration
  by_cases h1 : s.isOrchestrationMode = true <;>
    by_cases h2 : s.orchestrationInitialized = true <;>
      by_cases h3 : reportsInitialized env.statusResp = true <;>
        simp [h1, h2, h3, (startAgentThinkingPolling_fields _).1] <;>
          split <;>
            simp [(startAgentThinkingPolling_fields _).1]

theorem prepareSend_state_init (s : ComponentState) (env : SendEnv)
    (m : String) :
    (prepareSend s env m).state.orchestrationInitialized =
      (s.orchestrationInitialized ||
        (s.isOrchestrationMode && reportsInitialized env.statusResp)) := by
  unfold prepareSend chooseOrchestration
  by_cases h1 : s.isOrchestrationMode = true <;>
    by_cases h2 : s.orchestrationInitialized = true <;>
      by_cases h3 : reportsInitialized env.statusResp = true <;>
        simp [h1, h2, h3, (startAgentThinkingPolling_fields _).2.1] <;>
          split <;>
            simp [(startAgentThinkingPolling_fields _).2.1]

theorem mem_prepareSend_requests {s : ComponentState} {env : SendEnv}
    {m : String} {r : Request}
    (hr : r ∈ (prepareSend s env m).requests) :
    r = { method := "GET", url := "/orchestration/status", body := none } ∨
    r = { method := "POST",
          url := if (prepareSend s env m).useOrchestration then
            "/orchestration/chat" else "/chat",
          body := some (if (prepareSend s env m).useOrchestration then
            PostBody.queryField m else PostBody.messageField m) } := by
  revert hr
  unfold prepareSend chooseOrchestration
  by_cases h1 : s.isOrchestrationMode = true <;>
    by_cases h2 : s.orchestrationInitialized = true <;>
      by_cases h3 : reportsInitialized env.statusResp = true <;>
        simp [h1, h2, h3] <;> tauto

theorem prepareSend_post_filter (s : ComponentState) (env : SendEnv)
    (m : String) :
    (prepareSend s env m).requests.filter (fun r => r.method == "POST") =
      [{ method := "POST",
         url := if (prepareSend s env m).useOrchestration then
           "/orchestration/chat" else "/chat",
         body := some (if (prepareSend s env m).useOrchestration then
           PostBody.queryField m else PostBody.messageField m) }] := by
  unfold prepareSend chooseOrchestration
  by_cases h1 : s.isOrchestrationMode = true <;>
    by_cases h2 : s.orchestrationInitialized = true <;>
      by_cases h3 : reportsInitialized env.statusResp = true <;>
        simp [h1, h2, h3, List.filter_cons,
          show (("GET" : String) == "POST") = false from by decide,
          show (("POST" : String) == "POST") = true from by decide]

theorem prepareSend_status_filter (s : ComponentState) (env : SendEnv)
    (m : String) (h1 : s.isOrchestrationMode = true)
    (h2 : s.orchestrationInitialized = false) :
    ((prepareSend s env m).requests.filter
      (fun r => r.url == "/orchestration/status")).length = 1 := by
  unfold prepareSend chooseOrchestration
  by_cases h3 : reportsInitialized env.statusResp = true <;>
    simp [h1, h2, h3, List.filter_cons,
      show (("/orchestration/status" : String) ==
        "/orchestration/status") = true from by decide,
      show (("/orchestration/chat" : String) ==
        "/orchestration/status") = false from by decide,
      show (("/chat" : String) == "/orchestration/status") = false
        from by decide]

/-- The non-2xx chat response used in the transport-failure scenarios. -/
def non2xxResp : ChatResp :=
  { ok := false,
    orchJson := { status := none, orchestration_result := none,
                  error := none },
    streamChunks := [] }

/-- Environment in which the chat `POST` comes back non-2xx. -/
def non2xxEnv : SendEnv :=
  { statusResp := none, chatResp := some non2xxResp, parse := fun _ => none }

/-- Environment in which the chat `fetch` itself throws (network error or
abort). -/
def throwEnv : SendEnv :=
  { statusResp := none, chatResp := none, parse := fun _ => none }

/-- Orchestrated session, initialized, with thinking display enabled. -/
def orchReadyState : ComponentState :=
  { initialComponent with
      isOrchestrationMode := true
      orchestrationInitialized := true
      showAgentThinking := true }

/-- Claim C4, counterexample: a non-2xx chat response is not surfaced in
either path — after the send the transcript holds only the user turn, no
assistant/error turn, both in single mode and in orchestration mode. -/
theorem transport_failure_no_error_turn :
    (onSend initialComponent non2xxEnv "hi").1.messageList =
      [{ id := "user-0", content := "hi", role := some "user",
         isAnswer := none }] ∧
    (onSend orchReadyState non2xxEnv "q").1.messageList =
      [{ id := "user-0", content := "q", role := some "user",
         isAnswer := none }] := by
  exact ⟨by decide, by decide⟩

/-- Claim C4 (amended): a transport failure in the form of a non-2xx chat
response is logged and swallowed by an early `return`: no assistant/error
turn is appended (the transcript gains exactly the user turn), and the
send is never retried — exactly one chat `POST` is issued. -/
theorem non2xx_logged_not_surfaced :
    ∀ (s : ComponentState) (env : SendEnv) (m : String) (resp : ChatResp),
      env.chatResp = some resp → resp.ok = false →
        (onSend s env m).1.messageList = s.messageList ++ [userItemOf s m] ∧
        ((onSend s env m).2.filter (fun r => r.method == "POST")).length
          = 1 := by
  intro s env m resp h hok
  constructor
  · show (onSend s env m).1.messageList = _
    unfold onSend
    rw [h]
    simp only [hok, Bool.not_false, if_true]
    exact prepareSend_state_messageList s env m
  · rw [onSend_snd, prepareSend_post_filter]
    rfl

/-- Claim C4, witness: the amended statement at a concrete failing
environment. -/
theorem non2xx_logged_not_surfaced_witness :
    (onSend initialComponent non2xxEnv "hey").1.messageList =
      initialComponent.messageList ++ [userItemOf initialComponent "hey"] ∧
    ((onSend initialComponent non2xxEnv "hey").2.filter
      (fun r => r.method == "POST")).length = 1 :=
  non2xx_logged_not_surfaced initialComponent non2xxEnv "hey" non2xxResp
    rfl rfl

/-- The resolved path decision of one send: orchestration is used when
the mode is on and either the cache or the revalidation confirms
initialization. -/
def useOrchResolved (s : ComponentState) (env : SendEnv) : Bool :=
  s.isOrchestrationMode &&
    (s.orchestrationInitialized || reportsInitialized env.statusResp)

/-- Claim C6, counterexample: orchestrated, initialized, thinking display
on; the chat `POST` settles with a non-2xx response; the early `return`
skips `stopRespondingAndPolling`, so the poller flag stays set, interval
timer `0` is still scheduled, and the responding flag is still up — a
settled request left the poller's interval timer running. -/
theorem poller_leak_on_non2xx :
    (onSend orchReadyState non2xxEnv "q").1.isPollingThinking = true ∧
    (onSend orchReadyState non2xxEnv "q").1.activeTimers = [0] ∧
    (onSend orchReadyState non2xxEnv "q").1.isResponding = true :=
  ⟨by decide, by decide, by decide⟩

/-- Claim C6 (amended): the poller is stopped when the request settles by
a thrown fetch or abort (the `catch` path), and when an orchestrated-path
response arrives with a 2xx status (both the success and the
application-error branch call `stopRespondingAndPolling`); it is NOT
stopped on a non-2xx response, where the early return leaves the timer
running (see the counterexample). -/
theorem poller_stopped_on_settle_paths :
    ∀ (s : ComponentState) (env : SendEnv) (m : String),
      (env.chatResp = none →
        (onSend s env m).1.isPollingThinking = false ∧
        (onSend s env m).1.timerHandle = none) ∧
      (∀ resp : ChatResp, env.chatResp = some resp → resp.ok = true →
        useOrchResolved s env = true →
        (onSend s env m).1.isPollingThinking = false ∧
        (onSend s env m).1.timerHandle = none) := by
  intro s env m
  constructor
  · intro h
    show (onSend s env m).1.isPollingThinking = false ∧
      (onSend s env m).1.timerHandle = none
    unfold onSend
    rw [h]
    exact ⟨(stopRespondingAndPolling_fields _).1,
      (stopRespondingAndPolling_fields _).2.1⟩
  · intro resp h hok huse
    have hu : (prepareSend s env m).useOrchestration = true := by
      rw [prepareSend_useOrchestration]
      exact huse
    show (onSend s env m).1.isPollingThinking = false ∧
      (onSend s env m).1.timerHandle = none
    unfold onSend
    rw [h]
    simp only [hok, Bool.not_true, Bool.false_eq_true, if_false, hu,
      if_true]
    exact ⟨(stopRespondingAndPolling_fields _).1,
      (stopRespondingAndPolling_fields _).2.1⟩

/-- Claim C6, witness: on a thrown fetch in the orchestrated
configuration the poller ends stopped. -/
theorem poller_stopped_on_settle_paths_witness :
    (onSend orchReadyState throwEnv "q").1.isPollingThinking = false ∧
    (onSend orchReadyState throwEnv "q").1.timerHandle = none :=
  (poller_stopped_on_settle_paths orchReadyState throwEnv "q").1 rfl

/-- Claim C5: when mode is orchestrated and the cached flag is false,
exactly one status request is made; if it reports success/initialized the
cache ends true and the single `POST` goes to `/orchestration/chat` with
the `{query}` body; otherwise the single `POST` falls back to `/chat`
with the `{message}` body and the pre-`POST` state carries no message
beyond the user turn (no user-facing error from the fallback). -/
theorem revalidation_before_send :
    ∀ (s : ComponentState) (env : SendEnv) (m : String),
      s.isOrchestrationMode = true → s.orchestrationInitialized = false →
      (((onSend s env m).2.filter
          (fun r => r.url == "/orchestration/status")).length = 1) ∧
      (reportsInitialized env.statusResp = true →
        ((onSend s env m).2.filter (fun r => r.method == "POST") =
          [{ method := "POST", url := "/orchestration/chat",
             body := some (PostBody.queryField m) }]) ∧
        (onSend s env m).1.orchestrationInitialized = true) ∧
      (reportsInitialized env.statusResp = false →
        ((onSend s env m).2.filter (fun r => r.method == "POST") =
          [{ method := "POST", url := "/chat",
             body := some (PostBody.messageField m) }]) ∧
        (prepareSend s env m).state.messageList =
          s.messageList ++ [userItemOf s m]) := by
  intro s env m h1 h2
  refine ⟨?_, ?_, ?_⟩
  · rw [onSend_snd]
    exact prepareSend_status_filter s env m h1 h2
  · intro h3
    have hu : (prepareSend s env m).useOrchestration = true := by
      rw [prepareSend_useOrchestration, h1, h3]
      simp
    constructor
    · rw [onSend_snd, prepareSend_post_filter, hu]
      rfl
    · have hpi : (prepareSend s env m).state.orchestrationInitialized
          = true := by
        rw [prepareSend_state_init, h1, h3]
        simp
      show (onSend s env m).1.orchestrationInitialized = true
      unfold onSend
      rcases hc : env.chatResp with _ | resp
      · rw [(stopRespondingAndPolling_fields _).2.2.2]
        exact hpi
      · cases hok : resp.ok
        · simp only [hok, Bool.not_false, if_true]
          exact hpi
        · simp only [hok, Bool.not_true, Bool.false_eq_true, if_false, hu,
            if_true]
          rw [(stopRespondingAndPolling_fields _).2.2.2]
          rcases hor : resp.orchJson.orchestration_result with _ | r
          · simp [orchErrorAppend, hpi]
          · by_cases hst : resp.orchJson.status = some "success"
            · simp [hst, hpi]
            · simp [hst, orchErrorAppend, hpi]
  · intro h3
    have hu : (prepareSend s env m).useOrchestration = false := by
      rw [prepareSend_useOrchestration, h2, h3]
      simp
    constructor
    · rw [onSend_snd, prepareSend_post_filter, hu]
      rfl
    · exact prepareSend_state_messageList s env m

/-- Orchestrated session whose cached flag is (stale) false. -/
def orchStaleState : ComponentState :=
  { initialComponent with isOrchestrationMode := true }

/-- A 2xx orchestration chat response carrying a successful result. -/
def okOrchResp : ChatResp :=
  { ok := true,
    orchJson := { status := some "success",
                  orchestration_result :=
                    some { result := "R", agents_used := ["a1"] },
                  error := none },
    streamChunks := [] }

/-- Environment whose status endpoint reports success/initialized and
whose chat endpoint succeeds. -/
def goodStatusEnv : SendEnv :=
  { statusResp := some { ok := true, status := some "success",
                         infoStatus := some "initialized" },
    chatResp := some okOrchResp, parse := fun _ => none }

/-- Claim C5, witness: the stale-cache send against a status endpoint
reporting initialized revalidates once, posts to the orchestration
endpoint and ends with the cache set. -/
theorem revalidation_before_send_witness :
    ((onSend orchStaleState goodStatusEnv "q").2.filter
      (fun r => r.url == "/orchestration/status")).length = 1 ∧
    (onSend orchStaleState goodStatusEnv "q").2.filter
      (fun r => r.method == "POST") =
      [{ method := "POST", url := "/orchestration/chat",
         body := some (PostBody.queryField "q") }] ∧
    (onSend orchStaleState goodStatusEnv "q").1.orchestrationInitialized
      = true :=
  ⟨(revalidation_before_send orchStaleState goodStatusEnv "q" (by decide)
      (by decide)).1,
   ((revalidation_before_send orchStaleState goodStatusEnv "q" (by decide)
      (by decide)).2.1 (by decide)).1,
   ((revalidation_before_send orchStaleState goodStatusEnv "q" (by decide)
      (by decide)).2.1 (by decide)).2⟩

/-- A status object reporting an initialized orchestration, as required
by the guard of `processOrchestrationQuery`. -/
def initializedStatus : OrchestrationStatusData :=
  { status := "success",
    orchestration_info := { agent_count := 2, agent_ids := ["a1", "a2"],
                            endpoint := "e", status := "initialized" } }

/-- Claim C9, counterexample: `processOrchestrationQuery` in
`OrchestrationPanel.tsx` posts to `/orchestration/chat` with body
`{message: ...}`, not `{query: ...}` — so not every request the client
sends to that endpoint carries a `{query}` body. -/
theorem orch_chat_body_counterexample :
    processOrchestrationQuery "hi" (some initializedStatus) =
      some { method := "POST", url := "/orchestration/chat",
             body := some (PostBody.messageField "hi") } ∧
    PostBody.messageField "hi" ≠ PostBody.queryField "hi" :=
  ⟨by decide, by decide⟩

/-- Claim C9 (amended): the chat-session send path (`onSend` in
`AgentPreview.tsx`) always posts `{query: text}` to
`/orchestration/chat`; the `OrchestrationPanel` query path posts
`{message: text}` to the same endpoint. -/
theorem orch_chat_request_bodies :
    (∀ (s : ComponentState) (env : SendEnv) (m : String) (r : Request),
      r ∈ (onSend s env m).2 → r.url = "/orchestration/chat" →
        r.body = some (PostBody.queryField m)) ∧
    (∀ (m : String) (st : Option OrchestrationStatusData) (r : Request),
      processOrchestrationQuery m st = some r →
        r.body = some (PostBody.messageField m)) := by
  constructor
  · intro s env m r hr hurl
    rw [onSend_snd] at hr
    rcases mem_prepareSend_requests hr with h | h
    · rw [h] at hurl
      exact absurd hurl (by decide)
    · by_cases hu : (prepareSend s env m).useOrchestration = true
      · rw [h, hu]
        rfl
      · rw [Bool.not_eq_true] at hu
        rw [h, hu] at hurl
        simp at hurl
  · intro m st r h
    unfold processOrchestrationQuery at h
    by_cases hm : trimChars m.data = []
    · simp [hm] at h
    · rcases st with _ | stv
      · simp [hm] at h
      · by_cases hs : stv.orchestration_info.status = "initialized"
        · simp [hm, hs] at h
          rw [← h]
        · simp [hm, hs] at h

/-- One orchestration `POST` issued by the `onSend` path. -/
def orchPostReq : Request :=
  { method := "POST", url := "/orchestration/chat",
    body := some (PostBody.queryField "q2") }

/-- The request issued by a concrete `processOrchestrationQuery` call. -/
def panelPostReq : Request :=
  { method := "POST", url := "/orchestration/chat",
    body := some (PostBody.messageField "m2") }

/-- Claim C9, witness: both conjuncts applied at concrete requests. -/
theorem orch_chat_request_bodies_witness :
    orchPostReq.body = some (PostBody.queryField "q2") ∧
    panelPostReq.body = some (PostBody.messageField "m2") :=
  ⟨orch_chat_request_bodies.1 orchReadyState goodStatusEnv "q2" orchPostReq
      (by decide) (by decide),
   orch_chat_request_bodies.2 "m2" (some initializedStatus) panelPostReq
      (by decide)⟩
